/-
Verification of the scani offline-resilient data-access layer.

Shallow embedding of the service layer in `src/services/productService.ts`
(called `MainSvc` below) and of the older variant of the same module kept in
the repository (called `P3` below, the file with the cache-first
`processBarcodeScan` and the status-transitioning `processOperation`).
Pure functions are translated directly; stateful code is translated to
explicit state passing (the persisted queue / storage map is threaded
through every function); the outcomes of remote calls, of the connectivity
probe and of `Math.random` are supplied as explicit environment parameters.
Times and delays are rationals (JS numbers, idealized to exact arithmetic).
-/
import Mathlib

namespace Scani

/-! ### Constants (productService.ts) -/

/-- `CACHE_EXPIRY_MS = 24 * 60 * 60 * 1000` (24 hours). -/
def CACHE_EXPIRY_MS : Int := 24 * 60 * 60 * 1000

/-- `STORAGE_SIZE_LIMIT = 10 * 1024 * 1024` (10 MiB). -/
def STORAGE_SIZE_LIMIT : Nat := 10 * 1024 * 1024

/-- `DEFAULT_MAX_RETRIES = 5`. -/
def DEFAULT_MAX_RETRIES : Nat := 5

/-- `INITIAL_RETRY_DELAY = 1000` (1 second, in ms). -/
def INITIAL_RETRY_DELAY : ℚ := 1000

/-- `MAX_RETRY_DELAY = 60 * 60 * 1000` (1 hour, in ms). -/
def MAX_RETRY_DELAY : ℚ := 60 * 60 * 1000

/-! ### Health score (`calculateHealthScore`, productService.ts:1626-1659)

The external API payload fields the function reads.  JS truthiness detail:
an absent field and a falsy field (`""` for the grade, `0` for the NOVA
group) both skip the corresponding `switch`; since `""` and `0` also match
no `case`, representing the fields as `Option` with a default-`0` arm is
exact. -/

structure OffFacts where
  nutriscore_grade : Option String
  nova_group : Option Nat
  labels_tags : List String

/-- Character-list prefix test (used by the substring check below). -/
def charsPrefix : List Char → List Char → Bool
  | [], _ => true
  | _ :: _, [] => false
  | a :: as, b :: bs => a == b && charsPrefix as bs

/-- Character-list substring test. -/
def charsSub (pat : List Char) : List Char → Bool
  | [] => pat.isEmpty
  | c :: rest => charsPrefix pat (c :: rest) || charsSub pat rest

/-- JS `String.prototype.includes`: substring containment. -/
def strIncludes (s pat : String) : Bool :=
  charsSub pat.toList s.toList

/-- JS `String.prototype.toUpperCase` (ASCII range suffices for the grade
letters compared against). -/
def strToUpper (s : String) : String :=
  String.mk (s.toList.map Char.toUpper)

/-- `calculateHealthScore`: start at 50, add the Nutri-Score bonus, the
NOVA-group bonus and the organic-label bonus, then clamp to [0,100]. -/
def calculateHealthScore (p : OffFacts) : Int :=
  let score : Int := 50
  let score := score +
    match p.nutriscore_grade with
    | some g =>
      match strToUpper g with
      | "A" => 30
      | "B" => 20
      | "C" => 10
      | "D" => -10
      | "E" => -20
      | _ => 0
    | none => 0
  let score := score +
    match p.nova_group with
    | some 1 => 20
    | some 2 => 10
    | some 3 => -10
    | some 4 => -20
    | _ => 0
  let score := score +
    (if p.labels_tags.any (fun l => strIncludes l "organic" || strIncludes l "bio")
     then 10 else 0)
  max 0 (min 100 score)

/-- Spec formula, letter-grade term: {A:+30, B:+20, C:+10, D:-10, E:-20}
for the letter nutrition grade if present. -/
def specNutriBonus (p : OffFacts) : Int :=
  match p.nutriscore_grade with
  | some g =>
    match strToUpper g with
    | "A" => 30
    | "B" => 20
    | "C" => 10
    | "D" => -10
    | "E" => -20
    | _ => 0
  | none => 0

/-- Spec formula, processing-level term: {1:+20, 2:+10, 3:-10, 4:-20} for
the 1-4 processing-level grade if present. -/
def specNovaBonus (p : OffFacts) : Int :=
  match p.nova_group with
  | some 1 => 20
  | some 2 => 10
  | some 3 => -10
  | some 4 => -20
  | _ => 0

/-- Spec formula, organic term: +10 if any label tag contains "organic" or
"bio". -/
def specOrganicBonus (p : OffFacts) : Int :=
  if p.labels_tags.any (fun l => strIncludes l "organic" || strIncludes l "bio")
  then 10 else 0

/-- Clamp to [0,100]. -/
def clamp100 (x : Int) : Int := max 0 (min 100 x)

/-! ### Product cache (`getFromCache`, productService.ts:623-643) -/

/-- A product record; only the fields the verified layer inspects. -/
structure Product where
  id : String
  barcode : String
deriving DecidableEq, Repr

/-- `CachedProduct`: a product together with its `cachedAt` timestamp. -/
structure CachedProduct where
  product : Product
  timestamp : Int
deriving DecidableEq, Repr

/-- `getFromCache`, state-passing form.  The first argument is the entry
stored under `scani_product_<barcode>` (if any), `now` is `Date.now()`.
Returns the lookup result together with the entry left in storage
(`Storage.removeItem` is called on an expired entry). -/
def getFromCache (entry : Option CachedProduct) (now : Int) :
    Option Product × Option CachedProduct :=
  match entry with
  | none => (none, none)
  | some e =>
    if now - e.timestamp > CACHE_EXPIRY_MS then
      (none, none)
    else
      (some e.product, some e)

/-! ### Retry backoff (`calculateBackoffDelay`, productService.ts:2531-2539)

`INITIAL_RETRY_DELAY * Math.pow(2, retryCount) * (0.8 + Math.random() * 0.4)`
capped at `MAX_RETRY_DELAY`.  The `Math.random()` draw is the explicit
parameter `u ∈ [0,1]`, so the multiplicative jitter `0.8 + 0.4·u` ranges
over [0.8, 1.2]. -/

/-- `calculateBackoffDelay` with the random draw made explicit. -/
def calculateBackoffDelay (retryCount : Nat) (u : ℚ) : ℚ :=
  min (INITIAL_RETRY_DELAY * 2 ^ retryCount * (8/10 + u * (4/10))) MAX_RETRY_DELAY

/-! ### Rate-limited API client (`makeApiRequest`, productService.ts:698-816)

The sequence of fetch outcomes the server produces for the request is the
explicit parameter; the client walks it, consuming one outcome per fetch
attempt.  On a 429 it waits `Retry-After` seconds (default 5) and calls
itself recursively — there is no retry counter in the source, so the
recursion retries on every 429, not once. -/

/-- Error kinds `makeApiRequest` can surface.  `exhausted` is a model
artifact marking a truncated all-429 trace (the source would still be
retrying). -/
inductive ApiErrKind
  | network
  | productService
  | exhausted
deriving DecidableEq, Repr

/-- One fetch attempt's outcome, as classified by the source's status
switch: a thrown `TypeError` (network failure), a 2xx body, a 429 with an
optional `Retry-After` header, a 404, a 5xx, or another non-2xx status. -/
inductive FetchOutcome
  | throws
  | okResp
  | rateLimited (retryAfter : Option Nat)
  | notFound
  | serverError
  | otherStatus
deriving DecidableEq, Repr

/-- `makeApiRequest` over a finite outcome trace.  Returns the surfaced
result, the number of fetch attempts made, and the total rate-limit wait
in seconds. -/
def makeApiRequest : List FetchOutcome → Except ApiErrKind Unit × Nat × Nat
  | [] => (Except.error ApiErrKind.exhausted, 0, 0)
  | o :: rest =>
    match o with
    | FetchOutcome.throws => (Except.error ApiErrKind.network, 1, 0)
    | FetchOutcome.okResp => (Except.ok (), 1, 0)
    | FetchOutcome.rateLimited ra =>
      let waitTime := ra.getD 5
      let r := makeApiRequest rest
      (r.1, r.2.1 + 1, r.2.2 + waitTime)
    | FetchOutcome.notFound => (Except.error ApiErrKind.productService, 1, 0)
    | FetchOutcome.serverError => (Except.error ApiErrKind.network, 1, 0)
    | FetchOutcome.otherStatus => (Except.error ApiErrKind.network, 1, 0)

/-- Whether an outcome is an HTTP 429. -/
def isRateLimited : FetchOutcome → Bool
  | FetchOutcome.rateLimited _ => true
  | _ => false

/-- The result the client surfaces for a non-429 outcome. -/
def settleOutcome : FetchOutcome → Except ApiErrKind Unit
  | FetchOutcome.throws => Except.error ApiErrKind.network
  | FetchOutcome.okResp => Except.ok ()
  | FetchOutcome.rateLimited _ => Except.error ApiErrKind.network
  | FetchOutcome.notFound => Except.error ApiErrKind.productService
  | FetchOutcome.serverError => Except.error ApiErrKind.network
  | FetchOutcome.otherStatus => Except.error ApiErrKind.network

/-- The wait a 429 outcome imposes (`Retry-After`, default 5 seconds). -/
def waitOf : FetchOutcome → Nat
  | FetchOutcome.rateLimited ra => ra.getD 5
  | _ => 0

/-! ### Storage adapter `setItem` (productService.ts:328-361, 543-577)

The persisted namespace is a finite insertion-ordered key-value map.  A
stored value is represented by its serialized length plus the `timestamp`
field best-effort JSON parsing finds in it: `timestamp = none` covers both
an unparseable value and a falsy (0) timestamp, which `cleanupOldItems`
skips alike (`if (parsed.timestamp)`). -/

/-- A stored value: its string length and its parseable truthy timestamp. -/
structure StoredValue where
  len : Nat
  timestamp : Option Int
deriving DecidableEq, Repr

/-- The adapter's namespaced key-value store. -/
abbrev Store := List (String × StoredValue)

/-- `Storage.getSize`: sum of key length + value length over all keys. -/
def getSize (st : Store) : Nat :=
  (st.map (fun kv => kv.1.length + kv.2.len)).sum

/-- Backing-map write: replace the first binding of the key, else append. -/
def setKV : Store → String → StoredValue → Store
  | [], k, v => [(k, v)]
  | (k', v') :: rest, k, v =>
    if k' = k then (k, v) :: rest else (k', v') :: setKV rest k v

/-- Stable ascending insertion by timestamp (JS `sort((a, b) =>
a.timestamp - b.timestamp)` is stable). -/
def insertByTs (x : String × Int) : List (String × Int) → List (String × Int)
  | [] => [x]
  | y :: ys => if x.2 < y.2 then x :: y :: ys else y :: insertByTs x ys

/-- Stable ascending sort by timestamp. -/
def sortByTs : List (String × Int) → List (String × Int)
  | [] => []
  | x :: xs => insertByTs x (sortByTs xs)

/-- `Storage.cleanupOldItems`: collect the entries with a parseable
timestamp, sort them oldest first, and remove the oldest
`Math.ceil(items.length * 0.2)` of them (20%, idealizing the float 0.2
as 1/5). -/
def cleanupOldItems (st : Store) : Store :=
  let items := st.filterMap (fun kv => kv.2.timestamp.map (fun t => (kv.1, t)))
  let sorted := sortByTs items
  let itemsToRemove := (sorted.length + 4) / 5
  let keysToRemove := (sorted.take itemsToRemove).map (fun it => it.1)
  st.filter (fun kv => !(keysToRemove.contains kv.1))

/-- `Storage.setItem`: if the current size plus the new value's length
exceeds the budget, run a cleanup pass and re-check once; raise the
size-limit `StorageError` (modelled as `Except.error ()`) if still over,
otherwise write. -/
def setItem (st : Store) (k : String) (v : StoredValue) : Except Unit Store :=
  if getSize st + v.len > STORAGE_SIZE_LIMIT then
    let st' := cleanupOldItems st
    if getSize st' + v.len > STORAGE_SIZE_LIMIT then
      Except.error ()
    else
      Except.ok (setKV st' k v)
  else
    Except.ok (setKV st k v)

/-! ### Operation queue data model (productService.ts:2126-2199)

`enqueueOperation`, `updateOperation` and `retryOperation` are textually
identical in the two service variants; `processOperation` differs and is
embedded twice (namespaces `MainSvc` and `P3` below).  The persisted queue
(`scani_operation_queue`) is threaded explicitly.  Times are rationals;
generated ids and `Math.random` draws are parameters. -/

/-- `OperationStatus`. -/
inductive OperationStatus
  | pending
  | inProgress
  | completed
  | failed
  | retry
deriving DecidableEq, Repr

/-- `OperationType`. -/
inductive OperationType
  | submitProduct
  | updateProduct
  | uploadImage
  | recordScan
  | custom
deriving DecidableEq, Repr

/-- The parts of an operation's `data` payload the queue-processing control
flow inspects: the RECORD_SCAN user reference (`none` = absent in JS) and
whether a CUSTOM payload carries a `process` function.  The remaining
payload fields are opaque to the processor. -/
structure OperationData where
  userId : Option String := none
  hasProcess : Bool := false
deriving DecidableEq, Repr

/-- `QueuedOperation`. -/
structure QueuedOperation where
  id : String
  type : OperationType
  data : OperationData
  status : OperationStatus
  retryCount : Nat
  maxRetries : Nat
  nextRetryTime : Option ℚ := none
  error : Option String := none
  createdAt : ℚ
  updatedAt : ℚ
deriving DecidableEq, Repr

/-- The persisted operation queue. -/
abbrev Queue := List QueuedOperation

/-- The operation record `enqueueOperation` creates: status `pending`,
retryCount 0, `maxRetries` from the options or the default 5, both
timestamps set to now.  The generated id is a parameter. -/
def mkQueuedOperation (oid : String) (t : OperationType) (data : OperationData)
    (maxRetries : Option Nat) (now : ℚ) : QueuedOperation :=
  { id := oid, type := t, data := data, status := OperationStatus.pending,
    createdAt := now, updatedAt := now, retryCount := 0,
    maxRetries := maxRetries.getD DEFAULT_MAX_RETRIES }

/-- `enqueueOperation`: create the record and append it to the persisted
queue.  (The event emission and the fire-and-forget online processing
trigger are outside the persisted-queue state modelled here.) -/
def enqueueOperation (q : Queue) (oid : String) (t : OperationType)
    (data : OperationData) (maxRetries : Option Nat) (now : ℚ) :
    QueuedOperation × Queue :=
  let op := mkQueuedOperation oid t data maxRetries now
  (op, q ++ [op])

/-- `updateOperation`: spread the patch over the first operation with the
given id, force `updatedAt := now`, and leave every other entry untouched;
`(none, q)` when the id is absent. -/
def updateOperation (now : ℚ) (oid : String)
    (patch : QueuedOperation → QueuedOperation) : Queue → Option QueuedOperation × Queue
  | [] => (none, [])
  | op :: rest =>
    if op.id = oid then
      (some { patch op with updatedAt := now }, { patch op with updatedAt := now } :: rest)
    else
      let r := updateOperation now oid patch rest
      (r.1, op :: r.2)

/-- `queue.find(op => op.id === operationId)`. -/
def findOperation (q : Queue) (oid : String) : Option QueuedOperation :=
  q.find? (fun op => op.id == oid)

/-- Status of the first operation with the given id. -/
def statusOf (q : Queue) (oid : String) : Option OperationStatus :=
  (findOperation q oid).map (fun op => op.status)

/-- Error kinds thrown during queue dispatch, mirroring the source's error
classes (`NetworkError`, `AuthenticationError`, `ProductServiceError`,
`QueueError`, `DatabaseError`). -/
inductive ErrKind
  | network
  | authentication
  | productService
  | queue
  | database
deriving DecidableEq, Repr

/-- The stored `error.message` for each kind (text schematic; the claims
only depend on presence, never on wording). -/
def errMessage : ErrKind → String
  | ErrKind.network => "network error"
  | ErrKind.authentication => "user not authenticated"
  | ErrKind.productService => "product service error"
  | ErrKind.queue => "queue error"
  | ErrKind.database => "database error"

/-- Environment for one dispatch: the outcomes the remote calls would
produce for this operation's payload, the currently authenticated user,
`Date.now()`, and the `Math.random()` draw `u` feeding the backoff
jitter. -/
structure DispatchEnv where
  submitResult : Except ErrKind Unit
  updateResult : Except ErrKind Unit
  uploadResult : Except ErrKind Unit
  recordScanResult : Except ErrKind Unit
  currentUser : Option String
  customResult : Except ErrKind Unit
  now : ℚ
  u : ℚ

/-- The first update both `processOperation` variants perform: mark the
operation in-progress. -/
def markInProgress (now : ℚ) (oid : String) (q : Queue) : Queue :=
  (updateOperation now oid
    (fun o => { o with status := OperationStatus.inProgress }) q).2

/-- The patch `retryOperation` applies: back to pending, counter reset,
error and nextRetryTime cleared. -/
def resetForRetry (op : QueuedOperation) : QueuedOperation :=
  { op with
    status := OperationStatus.pending,
    retryCount := 0,
    error := none,
    nextRetryTime := none }

/-- `retryOperation` (productService.ts:2766-2788): `null` unless the first
operation with the id exists with status FAILED; otherwise reset it via
`updateOperation`.  (The fire-and-forget online processing trigger is
outside the persisted-queue state modelled here.) -/
def retryOperation (q : Queue) (oid : String) (now : ℚ) :
    Option QueuedOperation × Queue :=
  match findOperation q oid with
  | none => (none, q)
  | some op =>
    if op.status ≠ OperationStatus.failed then (none, q)
    else updateOperation now oid resetForRetry q

end Scani

namespace Scani.MainSvc

/-! ### `processOperation`, main variant (productService.ts:2546-2644)

Dispatches by type; on success returns `true` with **no** status update
beyond the initial in-progress mark; on failure classifies the error and
returns a boolean (network → false, authentication → `retryCount < 1`,
other → false), again without touching the stored status. -/

/-- The type dispatch switch.  For RECORD_SCAN a missing, empty (JS-falsy)
or `"pending-auth"` user id is resolved via `getCurrentUserId()`;
`AuthenticationError` when no user is authenticated. -/
def dispatch (denv : DispatchEnv) (op : QueuedOperation) : Except ErrKind Unit :=
  match op.type with
  | OperationType.submitProduct => denv.submitResult
  | OperationType.updateProduct => denv.updateResult
  | OperationType.uploadImage => denv.uploadResult
  | OperationType.recordScan =>
    let needsResolve :=
      match op.data.userId with
      | none => true
      | some s => s == "" || s == "pending-auth"
    if needsResolve then
      match denv.currentUser with
      | none => Except.error ErrKind.authentication
      | some _ => denv.recordScanResult
    else denv.recordScanResult
  | OperationType.custom =>
    if op.data.hasProcess then denv.customResult
    else Except.error ErrKind.queue

/-- `processOperation`, main variant. -/
def processOperation (denv : DispatchEnv) (q : Queue) (op : QueuedOperation) :
    Bool × Queue :=
  let q1 := markInProgress denv.now op.id q
  match dispatch denv op with
  | Except.ok _ => (true, q1)
  | Except.error ErrKind.network => (false, q1)
  | Except.error ErrKind.authentication => (decide (op.retryCount < 1), q1)
  | Except.error _ => (false, q1)

/-! ### `processOperationQueue` (productService.ts:2651-2741)

The module-level mutable state (`queueProcessorRunning`,
`queueProcessorTimeout`, the persisted queue) is the explicit world.
`isNetworkAvailable()` is sampled once at entry (`online`) and once per
loop iteration (`onlineAt i`). -/

/-- Pass environment: dispatch outcomes plus the connectivity samples. -/
structure PassEnv where
  denv : DispatchEnv
  online : Bool
  onlineAt : Nat → Bool

/-- The module-level queue-processor state. -/
structure QueueWorld where
  running : Bool
  timeoutDelay : Option ℚ
  queue : Queue

/-- Selection predicate: pending, or retry whose `nextRetryTime` is unset
(JS-falsy, including 0) or due. -/
def readyToProcess (now : ℚ) (op : QueuedOperation) : Bool :=
  op.status == OperationStatus.pending ||
    (op.status == OperationStatus.retry &&
      (match op.nextRetryTime with
       | none => true
       | some t => t == 0 || decide (t ≤ now)))

/-- The sequential processing loop: stop early when connectivity is lost
(unless forced), otherwise process each selected operation against the
evolving queue, counting successes. -/
def runOps (penv : PassEnv) (force : Bool) :
    List QueuedOperation → Nat → Queue → Nat × Queue
  | [], _, q => (0, q)
  | op :: rest, i, q =>
    if !force && !(penv.onlineAt i) then (0, q)
    else
      let pr := processOperation penv.denv q op
      let r := runOps penv force rest (i + 1) pr.2
      ((if pr.1 then 1 else 0) + r.1, r.2)

/-- `Math.min(...remaining.map(op => op.nextRetryTime || Infinity))`:
a missing or JS-falsy (0) `nextRetryTime` contributes Infinity, encoded
as `none`. -/
def minNextRetry (remaining : Queue) : Option ℚ :=
  remaining.foldr
    (fun op acc =>
      match (match op.nextRetryTime with
             | some t => if t == 0 then none else some t
             | none => none), acc with
      | some x, some y => some (min x y)
      | some x, none => some x
      | none, y => y)
    none

/-- `processOperationQueue`: single-flight guard, offline guard, clear the
pending wake-up, run the pass, schedule a wake-up at the soonest
`nextRetryTime` (at least 1 s out) if retry operations remain, and release
the guard (`finally`). -/
def processOperationQueue (penv : PassEnv) (force : Bool) (w : QueueWorld) :
    Nat × QueueWorld :=
  if w.running then (0, w)
  else if !force && !penv.online then (0, w)
  else
    let q := w.queue
    if q.isEmpty then (0, { w with timeoutDelay := none, running := false })
    else
      let selected := q.filter (readyToProcess penv.denv.now)
      let r := runOps penv force selected 0 q
      let remaining := r.2.filter (fun op => op.status == OperationStatus.retry)
      let newTimeout : Option ℚ :=
        if remaining.isEmpty then none
        else
          match minNextRetry remaining with
          | some m => some (max (m - penv.denv.now) 1000)
          | none => none
      (r.1, { running := false, timeoutDelay := newTimeout, queue := r.2 })

end Scani.MainSvc

namespace Scani.P3

/-! ### `processOperation`, part_003 variant (src/unnamed/part_003:2948-3055)

Dispatches by type; on success marks the stored operation COMPLETED; on
failure marks it RETRY with an incremented counter and a backoff-computed
`nextRetryTime` while `retryCount < maxRetries`, else FAILED. -/

/-- The type dispatch switch.  For RECORD_SCAN only the literal
`"pending-auth"` user id is resolved via `getCurrentUserId()`. -/
def dispatch (denv : DispatchEnv) (op : QueuedOperation) : Except ErrKind Unit :=
  match op.type with
  | OperationType.submitProduct => denv.submitResult
  | OperationType.updateProduct => denv.updateResult
  | OperationType.uploadImage => denv.uploadResult
  | OperationType.recordScan =>
    match op.data.userId with
    | some "pending-auth" =>
      match denv.currentUser with
      | none => Except.error ErrKind.authentication
      | some _ => denv.recordScanResult
    | _ => denv.recordScanResult
  | OperationType.custom =>
    if op.data.hasProcess then denv.customResult
    else Except.error ErrKind.queue

/-- `processOperation`, part_003 variant. -/
def processOperation (denv : DispatchEnv) (q : Queue) (op : QueuedOperation) :
    Bool × Queue :=
  let q1 := markInProgress denv.now op.id q
  match dispatch denv op with
  | Except.ok _ =>
    (true,
     (updateOperation denv.now op.id
       (fun o => { o with status := OperationStatus.completed }) q1).2)
  | Except.error e =>
    if op.retryCount < op.maxRetries then
      (false,
       (updateOperation denv.now op.id
         (fun o =>
           { o with
             status := OperationStatus.retry,
             retryCount := op.retryCount + 1,
             nextRetryTime :=
               some (denv.now + calculateBackoffDelay op.retryCount denv.u),
             error := some (errMessage e) }) q1).2)
    else
      (false,
       (updateOperation denv.now op.id
         (fun o =>
           { o with
             status := OperationStatus.failed,
             error := some (errMessage e) }) q1).2)

end Scani.P3

namespace Scani.MainSvc

/-! ### Lookup orchestrator (`processBarcodeScan`, productService.ts:1451-1614)

The API-first variant (the spec's authoritative ordering).  The
environment carries the outcome each tier would produce; the function
additionally reports the trace of tier/network accesses, in order:
`apiFetch` and `dbFetch` are remote calls, `dbSave` the background
persistence kicked off on an API hit, `scanWrite` the direct scan-record
insert attempted while online, and `cacheRead` the local cache probe.
The cache write on an api/database hit and the 1%-random cache purge are
local effects outside the trace. -/

/-- A recorded tier/network access. -/
inductive Tier
  | apiFetch
  | cacheRead
  | dbFetch
  | dbSave
  | scanWrite
deriving DecidableEq, Repr

/-- Outcome of `fetchProductFromAPI`: a mapped product, a not-found, a
`NetworkError`, or any other error — all non-found outcomes are swallowed
and fall through to the next tier. -/
inductive ApiOutcome
  | found (p : Product)
  | notFound
  | netError
  | otherError
deriving DecidableEq, Repr

/-- Outcome of `getProductByBarcode` against the remote database. -/
inductive DbOutcome
  | dbFound (p : Product)
  | dbNotFound
  | dbError
deriving DecidableEq, Repr

/-- Environment of one lookup: connectivity, the three tiers' outcomes,
`Date.now()`, the generated temporary id, and whether the direct scan
insert would succeed. -/
structure LookupEnv where
  online : Bool
  api : ApiOutcome
  cache : Option CachedProduct
  db : DbOutcome
  now : Int
  newId : String
  scanOk : Bool
deriving DecidableEq, Repr

/-- What the caller receives: the product, whether a scan record was
written directly (vs. queued as a RECORD_SCAN operation), and the source
tier string. -/
structure LookupResult where
  product : Product
  scanRecorded : Bool
  source : String
deriving DecidableEq, Repr

/-- `processBarcodeScan`: API first when online (hit → temporary id,
background database save), then cache, then database when online; not
found anywhere raises `ProductNotFoundError`; finally the scan is
recorded with offline support (direct insert online, queued offline or on
failure). -/
def processBarcodeScan (lenv : LookupEnv) :
    Except Unit LookupResult × List Tier :=
  let s1 : Option Product × String × List Tier :=
    if lenv.online then
      match lenv.api with
      | ApiOutcome.found p =>
        (some { p with id := lenv.newId }, "api", [Tier.apiFetch, Tier.dbSave])
      | _ => (none, "", [Tier.apiFetch])
    else (none, "", [])
  let s2 : Option Product × String × List Tier :=
    match s1.1 with
    | some p => (some p, s1.2.1, s1.2.2)
    | none =>
      match (getFromCache lenv.cache lenv.now).1 with
      | some p => (some p, "cache", s1.2.2 ++ [Tier.cacheRead])
      | none => (none, s1.2.1, s1.2.2 ++ [Tier.cacheRead])
  let s3 : Option Product × String × List Tier :=
    match s2.1 with
    | some p => (some p, s2.2.1, s2.2.2)
    | none =>
      if lenv.online then
        match lenv.db with
        | DbOutcome.dbFound p => (some p, "database", s2.2.2 ++ [Tier.dbFetch])
        | _ => (none, s2.2.1, s2.2.2 ++ [Tier.dbFetch])
      else (none, s2.2.1, s2.2.2)
  match s3.1 with
  | none => (Except.error (), s3.2.2)
  | some p =>
    let trace := if lenv.online then s3.2.2 ++ [Tier.scanWrite] else s3.2.2
    (Except.ok { product := p, scanRecorded := lenv.online && lenv.scanOk,
                 source := s3.2.1 }, trace)

/-- Online lookup environment with an API hit, for the C1 witness. -/
def cLookupOnline : LookupEnv :=
  ⟨true, ApiOutcome.found ⟨"tmp", "3017620422003"⟩, none,
   DbOutcome.dbNotFound, 0, "uuid-1", true⟩

/-- Offline lookup environment with a fresh cache entry, for the C1
witness. -/
def cLookupOffline : LookupEnv :=
  ⟨false, ApiOutcome.notFound, some ⟨⟨"p9", "3017620422003"⟩, -1000⟩,
   DbOutcome.dbNotFound, 0, "uuid-2", true⟩

end Scani.MainSvc

namespace Scani

/-! ### Concrete records used by the queue witnesses -/

/-- A pending submit-product operation. -/
def cOpSubmit : QueuedOperation :=
  ⟨"op_a", OperationType.submitProduct, ⟨none, false⟩,
   OperationStatus.pending, 0, 5, none, none, 0, 0⟩

/-- Like `cOpSubmit` but with its retry budget exhausted. -/
def cOpSubmitMax : QueuedOperation :=
  { cOpSubmit with retryCount := 5 }

/-- A queued record-scan operation carrying the `"pending-auth"`
placeholder user. -/
def cOpScan : QueuedOperation :=
  ⟨"op_scan", OperationType.recordScan, ⟨some "pending-auth", false⟩,
   OperationStatus.pending, 0, 5, none, none, 0, 0⟩

/-- Like `cOpScan` after one failed attempt. -/
def cOpScanRetry1 : QueuedOperation :=
  { cOpScan with retryCount := 1 }

/-- A terminally failed operation. -/
def cOpFail : QueuedOperation :=
  ⟨"op_f", OperationType.submitProduct, ⟨none, false⟩,
   OperationStatus.failed, 3, 5, some 99, some "network error", 0, 50⟩

/-- Dispatch environment where every remote call succeeds. -/
def cDenvOk : DispatchEnv :=
  ⟨Except.ok (), Except.ok (), Except.ok (), Except.ok (),
   some "user-1", Except.ok (), 100, 1⟩

/-- Dispatch environment where the submit call fails with a network
error. -/
def cDenvNet : DispatchEnv :=
  { cDenvOk with submitResult := Except.error ErrKind.network }

/-- Dispatch environment with no authenticated user. -/
def cDenvNoUser : DispatchEnv :=
  ⟨Except.ok (), Except.ok (), Except.ok (), Except.ok (),
   none, Except.ok (), 1000, 0⟩

/-- Pass environment for the single-flight witness: online throughout. -/
def cPassEnv : MainSvc.PassEnv :=
  ⟨cDenvNoUser, true, fun _ => true⟩

end Scani

namespace Scani

/-! ### Theorems for C6 and C7 -/

/-- C6: for every external API product payload, the computed health score
equals the clamp to [0,100] of 50 plus the letter-grade bonus, plus the
processing-level bonus, plus the organic-label bonus; in particular a
product with nutriscore "A", nova_group 1 and no organic label scores
100. -/
theorem c6_health_score_formula :
    (∀ p : OffFacts,
      calculateHealthScore p =
        clamp100 (50 + specNutriBonus p + specNovaBonus p + specOrganicBonus p))
    ∧ calculateHealthScore ⟨some "A", some 1, []⟩ = 100 := by
  constructor
  · intro p
    rfl
  · decide

/-- C7: the cache load returns absent when there is no stored entry or when
`now - cachedAt` exceeds the 24-hour TTL, and in the expired case the entry
is removed from storage; an entry with `cachedAt = now - TTL - 1` is treated
as absent. -/
theorem c7_cache_ttl (e : CachedProduct) (now : Int) :
    getFromCache none now = (none, none)
    ∧ (now - e.timestamp > CACHE_EXPIRY_MS → getFromCache (some e) now = (none, none))
    ∧ (now - e.timestamp ≤ CACHE_EXPIRY_MS →
        getFromCache (some e) now = (some e.product, some e))
    ∧ (e.timestamp = now - CACHE_EXPIRY_MS - 1 →
        getFromCache (some e) now = (none, none)) := by
  refine ⟨rfl, ?_, ?_, ?_⟩
  · intro h
    simp [getFromCache, h]
  · intro h
    simp [getFromCache, not_lt.mpr h]
  · intro h
    have hgt : now - e.timestamp > CACHE_EXPIRY_MS := by
      rw [h]
      simp only [CACHE_EXPIRY_MS]
      omega
    simp [getFromCache, hgt]

/-- Witness for C7 at a concrete input: `now = 0`,
`cachedAt = -CACHE_EXPIRY_MS - 1` (one millisecond past the TTL). -/
theorem c7_cache_ttl_witness :
    getFromCache (some ⟨⟨"p1", "40111445"⟩, -86400001⟩) 0 = (none, none)
    ∧ getFromCache (some ⟨⟨"p1", "40111445"⟩, -86400000⟩) 0 =
        (some ⟨"p1", "40111445"⟩, some ⟨⟨"p1", "40111445"⟩, -86400000⟩) := by
  constructor
  · exact (c7_cache_ttl ⟨⟨"p1", "40111445"⟩, -86400001⟩ 0).2.2.2 (by decide)
  · exact (c7_cache_ttl ⟨⟨"p1", "40111445"⟩, -86400000⟩ 0).2.2.1 (by decide)

/-- C3 counterexample: with jitter draws inside the stated 0.8-1.2 bounds
(`u = 1`, jitter 1.2, at retryCount 0 and `u = 0`, jitter 0.8, at
retryCount 1), `delay(1) = 1600 < 1920 = delay(0) × 1.6`, refuting
`delay(r+1) ≥ delay(r) × 1.6` below the cap. -/
theorem c3_backoff_counterexample :
    calculateBackoffDelay 0 1 = 1200
    ∧ calculateBackoffDelay 1 0 = 1600
    ∧ calculateBackoffDelay 1 0 < calculateBackoffDelay 0 1 * (16/10) := by
  refine ⟨?_, ?_, ?_⟩ <;>
    norm_num [calculateBackoffDelay, INITIAL_RETRY_DELAY, MAX_RETRY_DELAY]

/-- C3 amended: for jitter draws within bounds, consecutive backoff delays
satisfy `delay(r) ≤ delay(r+1)` and
`min(delay(r) × 4/3, MaxDelay) ≤ delay(r+1)` — the worst-case growth factor
the 0.8-1.2 multiplicative jitter supports is `2 × 0.8 / 1.2 = 4/3`, not
1.6, and near the cap only the value truncated at MaxDelay is guaranteed —
and from retryCount 13 on the delay equals MaxDelay for every draw. -/
theorem c3_backoff_amended (r : Nat) (u1 u2 : ℚ)
    (h1a : 0 ≤ u1) (h1b : u1 ≤ 1) (h2a : 0 ≤ u2) (h2b : u2 ≤ 1) :
    calculateBackoffDelay r u1 ≤ calculateBackoffDelay (r + 1) u2
    ∧ min (calculateBackoffDelay r u1 * (4/3)) MAX_RETRY_DELAY ≤
        calculateBackoffDelay (r + 1) u2
    ∧ (13 ≤ r → calculateBackoffDelay r u1 = MAX_RETRY_DELAY) := by
  have hpow : (0:ℚ) < 2 ^ r := pow_pos (by norm_num) r
  set a : ℚ := INITIAL_RETRY_DELAY * 2 ^ r * (8/10 + u1 * (4/10)) with ha_def
  set b : ℚ := INITIAL_RETRY_DELAY * 2 ^ (r + 1) * (8/10 + u2 * (4/10)) with hb_def
  have hM : (0:ℚ) < MAX_RETRY_DELAY := by norm_num [MAX_RETRY_DELAY]
  have ha_nonneg : 0 ≤ a := by
    rw [ha_def, INITIAL_RETRY_DELAY]
    nlinarith
  have key : a * (4/3) ≤ b := by
    rw [ha_def, hb_def, pow_succ, INITIAL_RETRY_DELAY]
    nlinarith
  have hab : a ≤ b := by nlinarith
  refine ⟨min_le_min hab le_rfl, ?_, ?_⟩
  · rcases le_total b MAX_RETRY_DELAY with hbM | hbM
    · rw [calculateBackoffDelay, calculateBackoffDelay, ← ha_def, ← hb_def,
        min_eq_left hbM]
      calc min (min a MAX_RETRY_DELAY * (4/3)) MAX_RETRY_DELAY
          ≤ min a MAX_RETRY_DELAY * (4/3) := min_le_left _ _
        _ ≤ a * (4/3) := by
            have := min_le_left a MAX_RETRY_DELAY
            nlinarith [min_le_left a MAX_RETRY_DELAY]
        _ ≤ b := key
    · rw [calculateBackoffDelay, calculateBackoffDelay, ← ha_def, ← hb_def,
        min_eq_right hbM]
      exact min_le_right _ _
  · intro hr
    have h13 : (2:ℚ) ^ 13 ≤ 2 ^ r := pow_le_pow_right₀ (by norm_num) hr
    rw [calculateBackoffDelay, ← ha_def]
    refine min_eq_right ?_
    rw [ha_def, INITIAL_RETRY_DELAY, MAX_RETRY_DELAY]
    nlinarith

/-- Witness for C3's amended theorem at `r = 13`, `u1 = 0`, `u2 = 1`:
both delays are pinned at MaxDelay. -/
theorem c3_backoff_amended_witness :
    ((0:ℚ) ≤ 0 ∧ (0:ℚ) ≤ 1 ∧ (0:ℚ) ≤ 1 ∧ (1:ℚ) ≤ 1 ∧ (13 ≤ 13))
    ∧ calculateBackoffDelay 13 0 = MAX_RETRY_DELAY := by
  exact ⟨⟨le_rfl, by norm_num, by norm_num, le_rfl, le_rfl⟩,
    (c3_backoff_amended 13 0 1 le_rfl (by norm_num) (by norm_num) le_rfl).2.2 le_rfl⟩

/-- C9 counterexample: on the trace 429, 429, 2xx the client makes three
fetch attempts and returns success — it retried twice, not "exactly once",
and no failure was surfaced after the first retry also hit a 429. -/
theorem c9_rate_limit_counterexample :
    makeApiRequest
        [FetchOutcome.rateLimited (some 1), FetchOutcome.rateLimited (some 1),
         FetchOutcome.okResp] = (Except.ok (), 3, 2)
    ∧ ¬ (3 ≤ 2) := by
  exact ⟨rfl, by decide⟩

/-- C9 amended: on every 429 the client waits the server-supplied
retry-after (default 5 s) and transparently retries, without any bound on
the number of retries: the surfaced result is that of the first non-429
outcome, one fetch attempt is made per 429 plus the final one, and the
total wait is the sum of the retry-after hints of the 429s. -/
theorem c9_rate_limit_amended (pre : List FetchOutcome) (o : FetchOutcome)
    (rest : List FetchOutcome)
    (hpre : ∀ x ∈ pre, isRateLimited x = true)
    (ho : isRateLimited o = false) :
    makeApiRequest (pre ++ o :: rest) =
      (settleOutcome o, pre.length + 1, (pre.map waitOf).sum) := by
  induction pre with
  | nil =>
    cases o <;> simp_all [makeApiRequest, settleOutcome, isRateLimited]
  | cons x xs ih =>
    have hx : isRateLimited x = true := hpre x (by simp)
    have hxs : ∀ y ∈ xs, isRateLimited y = true := fun y hy => hpre y (by simp [hy])
    cases x with
    | rateLimited ra =>
      simp only [List.cons_append, makeApiRequest, List.append_eq, ih hxs,
        List.length_cons, List.map_cons, List.sum_cons, waitOf, Prod.mk.injEq]
      simp [Nat.add_comm]
    | throws => simp [isRateLimited] at hx
    | okResp => simp [isRateLimited] at hx
    | notFound => simp [isRateLimited] at hx
    | serverError => simp [isRateLimited] at hx
    | otherStatus => simp [isRateLimited] at hx

/-- Witness for C9's amended theorem on the concrete trace 429(2s), 2xx. -/
theorem c9_rate_limit_amended_witness :
    (∀ x ∈ [FetchOutcome.rateLimited (some 2)], isRateLimited x = true)
    ∧ makeApiRequest [FetchOutcome.rateLimited (some 2), FetchOutcome.okResp] =
        (Except.ok (), 2, 2) := by
  refine ⟨by decide, ?_⟩
  have h := c9_rate_limit_amended [FetchOutcome.rateLimited (some 2)]
    FetchOutcome.okResp [] (by decide) rfl
  simpa using h

/-- C8 counterexample: the admission check does not count the key's
length (nor an overwritten old value).  (i) Writing a value of exactly the
10 MiB budget under a 1-byte key into an empty store succeeds without any
eviction or error, although key+value exceed the budget — and the store
ends up over budget.  (ii) Overwriting a stored 10 MiB value under key "a"
with a 100-byte value raises the size-limit error, although the write
would shrink the store to 101 bytes. -/
theorem c8_capacity_counterexample :
    setItem [] "k" ⟨10485760, none⟩ =
      Except.ok [("k", ⟨10485760, none⟩)]
    ∧ getSize [("k", (⟨10485760, none⟩ : StoredValue))] = 10485761
    ∧ 10485761 > STORAGE_SIZE_LIMIT
    ∧ cleanupOldItems [] = []
    ∧ setItem [("a", ⟨10485760, none⟩)] "a" ⟨100, none⟩ = Except.error ()
    ∧ getSize (setKV [("a", ⟨10485760, none⟩)] "a" ⟨100, none⟩) = 101 := by
  exact ⟨rfl, by decide, by decide, rfl, rfl, by decide⟩

/-- C8 amended: `setItem` admits a write by comparing the current stored
size plus the new value's length (the key's length and any replaced old
value are not counted) against the 10 MiB budget; when that measure is
over budget the eviction pass runs and the measure is re-checked exactly
once, the size-limit error being raised iff it is still over budget after
the pass; otherwise the write goes through. -/
theorem c8_capacity_amended (st : Store) (k : String) (v : StoredValue) :
    (getSize st + v.len ≤ STORAGE_SIZE_LIMIT →
      setItem st k v = Except.ok (setKV st k v))
    ∧ (getSize st + v.len > STORAGE_SIZE_LIMIT →
        getSize (cleanupOldItems st) + v.len ≤ STORAGE_SIZE_LIMIT →
        setItem st k v = Except.ok (setKV (cleanupOldItems st) k v))
    ∧ (setItem st k v = Except.error () ↔
        getSize st + v.len > STORAGE_SIZE_LIMIT ∧
        getSize (cleanupOldItems st) + v.len > STORAGE_SIZE_LIMIT) := by
  refine ⟨?_, ?_, ?_⟩
  · intro h
    simp [setItem, Nat.not_lt.mpr h]
  · intro h1 h2
    simp [setItem, h1, Nat.not_lt.mpr h2]
  · constructor
    · intro h
      by_cases h1 : getSize st + v.len > STORAGE_SIZE_LIMIT
      · by_cases h2 : getSize (cleanupOldItems st) + v.len > STORAGE_SIZE_LIMIT
        · exact ⟨h1, h2⟩
        · simp [setItem, h1, h2] at h
      · simp [setItem, h1] at h
    · intro ⟨h1, h2⟩
      simp [setItem, h1, h2]

/-- Witness for C8's amended theorem: an in-budget write into an empty
store, and an over-budget write rescued by the eviction pass (the single
stored entry is timestamped, so eviction removes it). -/
theorem c8_capacity_amended_witness :
    (getSize [] + 3 ≤ STORAGE_SIZE_LIMIT
      ∧ setItem [] "k" ⟨3, none⟩ = Except.ok [("k", ⟨3, none⟩)])
    ∧ (getSize [("old", ⟨10485760, some 10⟩)] + 100 > STORAGE_SIZE_LIMIT
      ∧ setItem [("old", ⟨10485760, some 10⟩)] "k2" ⟨100, none⟩ =
          Except.ok [("k2", ⟨100, none⟩)]) := by
  constructor
  · refine ⟨by decide, ?_⟩
    exact (c8_capacity_amended [] "k" ⟨3, none⟩).1 (by decide)
  · refine ⟨by decide, ?_⟩
    have h := (c8_capacity_amended [("old", ⟨10485760, some 10⟩)] "k2"
      ⟨100, none⟩).2.1 (by decide) (by decide)
    simpa using h

/-! ### Queue lemmas -/

/-- `updateOperation` rewrites exactly the first operation carrying the id. -/
theorem updateOperation_append (now : ℚ) (oid : String)
    (patch : QueuedOperation → QueuedOperation)
    (q1 : Queue) (op : QueuedOperation) (q2 : Queue)
    (h1 : ∀ o ∈ q1, o.id ≠ oid) (hop : op.id = oid) :
    updateOperation now oid patch (q1 ++ op :: q2) =
      (some { patch op with updatedAt := now },
       q1 ++ { patch op with updatedAt := now } :: q2) := by
  induction q1 with
  | nil => simp [updateOperation, hop]
  | cons a as ih =>
    have ha : a.id ≠ oid := h1 a (by simp)
    have has : ∀ o ∈ as, o.id ≠ oid := fun o ho => h1 o (by simp [ho])
    simp [updateOperation, ha, ih has]

/-- `find?` locates the head of the decomposition's middle element. -/
theorem findOperation_append_first (q1 : Queue) (op : QueuedOperation)
    (q2 : Queue) (oid : String)
    (h1 : ∀ o ∈ q1, o.id ≠ oid) (hop : op.id = oid) :
    findOperation (q1 ++ op :: q2) oid = some op := by
  induction q1 with
  | nil => simp [findOperation, List.find?_cons, hop]
  | cons a as ih =>
    have ha : a.id ≠ oid := h1 a (by simp)
    have has : ∀ o ∈ as, o.id ≠ oid := fun o ho => h1 o (by simp [ho])
    simpa [findOperation, List.find?_cons, ha] using ih has

/-- Updating through `updateOperation` maps `findOperation` through the
patch (for the id-preserving patches the source applies). -/
theorem findOperation_updateOperation (now : ℚ) (oid : String)
    (patch : QueuedOperation → QueuedOperation)
    (hid : ∀ o, (patch o).id = o.id) (q : Queue) :
    findOperation (updateOperation now oid patch q).2 oid =
      (findOperation q oid).map (fun o => { patch o with updatedAt := now }) := by
  induction q with
  | nil => simp [updateOperation, findOperation]
  | cons a as ih =>
    by_cases ha : a.id = oid
    · simp [updateOperation, findOperation, List.find?_cons, ha, hid]
    · simp [updateOperation, findOperation, List.find?_cons, ha] at ih ⊢
      exact ih

/-! ### Theorems for C2, C4, C5, C10 -/

/-- C2: the queued-operation lifecycle under the status-transitioning
processor: `enqueueOperation` creates operations pending; picking one up
marks it in-progress; a successful dispatch marks it completed; a failed
dispatch marks it retry with `nextRetryTime = now + backoff(retryCount)`
and an incremented counter while `retryCount < maxRetries`, and failed
otherwise. -/
theorem c2_operation_lifecycle (denv : DispatchEnv) (q : Queue)
    (op : QueuedOperation) (h : findOperation q op.id = some op) :
    (∀ oid t data mr now,
      (mkQueuedOperation oid t data mr now).status = OperationStatus.pending)
    ∧ statusOf (markInProgress denv.now op.id q) op.id =
        some OperationStatus.inProgress
    ∧ (P3.dispatch denv op = Except.ok () →
        (P3.processOperation denv q op).1 = true
        ∧ statusOf (P3.processOperation denv q op).2 op.id =
            some OperationStatus.completed)
    ∧ (∀ e, P3.dispatch denv op = Except.error e →
        op.retryCount < op.maxRetries →
        (P3.processOperation denv q op).1 = false
        ∧ findOperation (P3.processOperation denv q op).2 op.id =
            some { op with
                   status := OperationStatus.retry,
                   retryCount := op.retryCount + 1,
                   nextRetryTime :=
                     some (denv.now + calculateBackoffDelay op.retryCount denv.u),
                   error := some (errMessage e),
                   updatedAt := denv.now })
    ∧ (∀ e, P3.dispatch denv op = Except.error e →
        ¬ op.retryCount < op.maxRetries →
        (P3.processOperation denv q op).1 = false
        ∧ statusOf (P3.processOperation denv q op).2 op.id =
            some OperationStatus.failed) := by
  have hIP : findOperation (markInProgress denv.now op.id q) op.id =
      some { op with status := OperationStatus.inProgress, updatedAt := denv.now } := by
    rw [markInProgress, findOperation_updateOperation denv.now op.id
      (fun o => { o with status := OperationStatus.inProgress }) (fun o => rfl) q, h]
    rfl
  refine ⟨fun _ _ _ _ _ => rfl, ?_, ?_, ?_, ?_⟩
  · rw [statusOf, hIP]
    rfl
  · intro hd
    constructor
    · simp [P3.processOperation, hd]
    · rw [statusOf]
      simp only [P3.processOperation, hd]
      rw [findOperation_updateOperation denv.now op.id
        (fun o => { o with status := OperationStatus.completed }) (fun o => rfl) _, hIP]
      rfl
  · intro e hd hlt
    constructor
    · simp [P3.processOperation, hd, hlt]
    · simp only [P3.processOperation, hd, if_pos hlt]
      rw [findOperation_updateOperation denv.now op.id
        (fun o =>
          { o with
            status := OperationStatus.retry,
            retryCount := op.retryCount + 1,
            nextRetryTime :=
              some (denv.now + calculateBackoffDelay op.retryCount denv.u),
            error := some (errMessage e) }) (fun o => rfl) _, hIP]
      rfl
  · intro e hd hge
    constructor
    · simp [P3.processOperation, hd, hge]
    · rw [statusOf]
      simp only [P3.processOperation, hd, if_neg hge]
      rw [findOperation_updateOperation denv.now op.id
        (fun o =>
          { o with
            status := OperationStatus.failed,
            error := some (errMessage e) }) (fun o => rfl) _, hIP]
      rfl

/-- Witness for C2 on a singleton queue: enqueue is pending, pick-up is
in-progress, success completes, a network failure with retry budget left
schedules a retry, and one with the budget exhausted fails. -/
theorem c2_operation_lifecycle_witness :
    (mkQueuedOperation "op_a" OperationType.submitProduct ⟨none, false⟩ none 0).status =
      OperationStatus.pending
    ∧ statusOf (markInProgress 100 "op_a" [cOpSubmit]) "op_a" =
        some OperationStatus.inProgress
    ∧ (P3.processOperation cDenvOk [cOpSubmit] cOpSubmit).1 = true
    ∧ statusOf (P3.processOperation cDenvOk [cOpSubmit] cOpSubmit).2 "op_a" =
        some OperationStatus.completed
    ∧ (P3.processOperation cDenvNet [cOpSubmit] cOpSubmit).1 = false
    ∧ statusOf (P3.processOperation cDenvNet [cOpSubmit] cOpSubmit).2 "op_a" =
        some OperationStatus.retry
    ∧ statusOf (P3.processOperation cDenvNet [cOpSubmitMax] cOpSubmitMax).2 "op_a" =
        some OperationStatus.failed := by
  have hok := c2_operation_lifecycle cDenvOk [cOpSubmit] cOpSubmit rfl
  have hnet := c2_operation_lifecycle cDenvNet [cOpSubmit] cOpSubmit rfl
  have hmax := c2_operation_lifecycle cDenvNet [cOpSubmitMax] cOpSubmitMax rfl
  refine ⟨hok.1 "op_a" OperationType.submitProduct ⟨none, false⟩ none 0, ?_,
    (hok.2.2.1 rfl).1, (hok.2.2.1 rfl).2, (hnet.2.2.2.1 ErrKind.network rfl (by decide)).1,
    ?_, (hmax.2.2.2.2 ErrKind.network rfl (by decide)).2⟩
  · exact (c2_operation_lifecycle cDenvOk [cOpSubmit] cOpSubmit rfl).2.1
  · have hr := (hnet.2.2.2.1 ErrKind.network rfl (by decide)).2
    rw [statusOf, show "op_a" = cOpSubmit.id from rfl, hr]
    rfl

/-- C4, code-bug evidence at the failing input (a record-scan operation
with an unresolvable user): the main variant's `processOperation` reports
the dispatch as successful (`retryCount < 1` is returned as the success
flag) and leaves the operation stuck in-progress — it is neither retried
once nor terminally failed — while the part_003 variant still schedules a
second retry at `retryCount = 1`, where the claim requires terminal
failure. -/
theorem c4_auth_error_code_bug :
    MainSvc.dispatch cDenvNoUser cOpScan = Except.error ErrKind.authentication
    ∧ MainSvc.processOperation cDenvNoUser [cOpScan] cOpScan =
        (true, [{ cOpScan with
                  status := OperationStatus.inProgress, updatedAt := 1000 }])
    ∧ MainSvc.dispatch cDenvNoUser cOpScanRetry1 = Except.error ErrKind.authentication
    ∧ (P3.processOperation cDenvNoUser [cOpScanRetry1] cOpScanRetry1).1 = false
    ∧ statusOf (P3.processOperation cDenvNoUser [cOpScanRetry1] cOpScanRetry1).2
        "op_scan" = some OperationStatus.retry := by
  refine ⟨rfl, rfl, rfl, rfl, rfl⟩

/-- C5: the single-flight guard — invoking `processOperationQueue` while a
pass is active returns 0 immediately and leaves the whole module state
(guard, scheduled wake-up, persisted queue) untouched. -/
theorem c5_single_flight_guard (penv : MainSvc.PassEnv) (force : Bool)
    (w : MainSvc.QueueWorld) (h : w.running = true) :
    MainSvc.processOperationQueue penv force w = (0, w) := by
  simp [MainSvc.processOperationQueue, h]

/-- Witness for C5: a re-entrant call over a non-empty queue with the
guard set is a no-op. -/
theorem c5_single_flight_guard_witness :
    (MainSvc.QueueWorld.mk true none [cOpScan]).running = true
    ∧ MainSvc.processOperationQueue cPassEnv false
        (MainSvc.QueueWorld.mk true none [cOpScan]) =
      (0, MainSvc.QueueWorld.mk true none [cOpScan]) :=
  ⟨rfl, c5_single_flight_guard cPassEnv false (MainSvc.QueueWorld.mk true none [cOpScan]) rfl⟩

/-- C10: `retryOperation` returns null and leaves the queue unchanged
unless the (first) operation with the id exists with status FAILED; in
that case exactly that operation is reset to pending with `retryCount` 0
and its error and `nextRetryTime` cleared (and `updatedAt` refreshed),
every other queue entry staying unmodified. -/
theorem c10_retry_frame (q : Queue) (oid : String) (now : ℚ) :
    ((∀ op ∈ q, op.id = oid → op.status ≠ OperationStatus.failed) →
        retryOperation q oid now = (none, q))
    ∧ (∀ q1 op q2, q = q1 ++ op :: q2 → (∀ o ∈ q1, o.id ≠ oid) → op.id = oid →
        op.status = OperationStatus.failed →
        retryOperation q oid now =
          (some { resetForRetry op with updatedAt := now },
           q1 ++ { resetForRetry op with updatedAt := now } :: q2)) := by
  constructor
  · intro hall
    cases hf : findOperation q oid with
    | none => simp [retryOperation, hf]
    | some op =>
      have hmem : op ∈ q := List.mem_of_find?_eq_some hf
      have hbeq := List.find?_some hf
      have hne := hall op hmem (by simpa using hbeq)
      simp [retryOperation, hf, hne]
  · intro q1 op q2 hq h1 hop hfail
    subst hq
    have hf := findOperation_append_first q1 op q2 oid h1 hop
    have hupd := updateOperation_append now oid resetForRetry q1 op q2 h1 hop
    simp [retryOperation, hf, hfail, hupd]

/-- Witness for C10: the failed operation in a singleton queue is reset;
a lookup under an id absent from the queue changes nothing. -/
theorem c10_retry_frame_witness :
    retryOperation [cOpFail] "op_f" 100 =
      (some { resetForRetry cOpFail with updatedAt := 100 },
       [{ resetForRetry cOpFail with updatedAt := 100 }])
    ∧ retryOperation [cOpFail] "op_zz" 100 = (none, [cOpFail]) := by
  constructor
  · have h := (c10_retry_frame [cOpFail] "op_f" 100).2 [] cOpFail [] rfl
      (by simp) rfl rfl
    simpa using h
  · exact (c10_retry_frame [cOpFail] "op_zz" 100).1 (by decide)

/-- C1: in `processBarcodeScan`, when the network is available the first
tier access is always the external API fetch (before the cache and before
the database); when the network is unavailable and the cache holds an
unexpired entry, the result is that entry with source "cache" and the
access trace is exactly the one local cache read — no API, database or
scan-insert network call is attempted. -/
theorem c1_api_first_offline_cache (lenv : MainSvc.LookupEnv) :
    (lenv.online = true →
      (MainSvc.processBarcodeScan lenv).2.head? = some MainSvc.Tier.apiFetch)
    ∧ (∀ e, lenv.online = false → lenv.cache = some e →
        lenv.now - e.timestamp ≤ CACHE_EXPIRY_MS →
        (MainSvc.processBarcodeScan lenv).1 =
          Except.ok ⟨e.product, false, "cache"⟩
        ∧ (MainSvc.processBarcodeScan lenv).2 = [MainSvc.Tier.cacheRead]) := by
  constructor
  · intro hon
    cases hapi : lenv.api <;>
      cases hc : (getFromCache lenv.cache lenv.now).1 <;>
        cases hdb : lenv.db <;>
          simp [MainSvc.processBarcodeScan, hon, hapi, hc, hdb]
  · intro e hoff hcache hfresh
    have hget : getFromCache lenv.cache lenv.now = (some e.product, some e) := by
      rw [hcache]
      simp [getFromCache, not_lt.mpr hfresh]
    constructor <;> simp [MainSvc.processBarcodeScan, hoff, hget]

/-- Witness for C1: a concrete online lookup traces the API fetch first;
a concrete offline lookup with a fresh cache entry returns it from the
cache with only the local cache read in the trace. -/
theorem c1_api_first_offline_cache_witness :
    (MainSvc.processBarcodeScan MainSvc.cLookupOnline).2.head? =
      some MainSvc.Tier.apiFetch
    ∧ (MainSvc.processBarcodeScan MainSvc.cLookupOffline).1 =
        Except.ok ⟨⟨"p9", "3017620422003"⟩, false, "cache"⟩
    ∧ (MainSvc.processBarcodeScan MainSvc.cLookupOffline).2 =
        [MainSvc.Tier.cacheRead] := by
  refine ⟨(c1_api_first_offline_cache MainSvc.cLookupOnline).1 rfl, ?_, ?_⟩
  · exact ((c1_api_first_offline_cache MainSvc.cLookupOffline).2
      ⟨⟨"p9", "3017620422003"⟩, -1000⟩ rfl rfl (by decide)).1
  · exact ((c1_api_first_offline_cache MainSvc.cLookupOffline).2
      ⟨⟨"p9", "3017620422003"⟩, -1000⟩ rfl rfl (by decide)).2

end Scani
